import Mathlib

/-!
Shallow embedding of `beancount/scripts/checkdeps.py`.

The script probes the running Python environment: the interpreter version
(`sys.version_info`), the decimal backend (`decimal` / `cdecimal`), and a
fixed list of third-party modules (via `__import__` and a `__version__`
attribute).  The environment is modelled by the structure `PyEnv` below;
each function of the script becomes a Lean function over `PyEnv`.
Python exceptions are modelled with `Except PyExc`.
-/

/-- The value found in a module's `__version__` attribute: either a string,
or some value that is not a string (which makes the
`assert isinstance(version, str)` in `check_import` fail). -/
inductive VersionAttr
  | str (s : String)
  | nonStr
deriving DecidableEq, Repr

/-- A loaded Python module, as far as this script observes it: whether it has
a `__version__` attribute and what that attribute holds. -/
structure PyModule where
  versionAttr : Option VersionAttr
deriving DecidableEq, Repr

/-- The result of `__import__(module_name)` followed by
`sys.modules[module_name]`: success with a module, an `ImportError`, or any
other exception raised while the module loads. -/
inductive ImportOutcome
  | ok (m : PyModule)
  | importError
  | otherError
deriving DecidableEq, Repr

/-- The Python exceptions that can escape from the functions modelled here:
`AttributeError` (missing `__version__`), `AssertionError` (non-string
`__version__`), or whatever non-`ImportError` exception a module raised while
being imported. -/
inductive PyExc
  | attributeError
  | assertionError
  | otherError
deriving DecidableEq, Repr

/-- The runtime environment the script probes:
`versionInfo` models `sys.version_info[:3]`;
`decimalFast` models `is_fast_decimal(decimal)` for the built-in `decimal`
module and `decimalVersion` its `__version__`;
`cdecimal` models the optional `cdecimal` package (`none` = `ImportError`,
otherwise its `is_fast_decimal` outcome and optional `__version__`);
`imports` models `__import__` / `sys.modules` for every other module name. -/
structure PyEnv where
  versionInfo : Nat × Nat × Nat
  decimalFast : Bool
  decimalVersion : String
  cdecimal : Option (Bool × Option String)
  imports : String → ImportOutcome

/-- One entry of the report: `(package-name, version-number, sufficient)`,
with `none` as the absence marker for the version. -/
abbrev CheckResult := String × Option String × Bool

/-- Python's `<` on strings, i.e. lexicographic comparison of the sequences
of character code points. -/
def pyCharsLt : List Char → List Char → Bool
  | [], [] => false
  | [], _ :: _ => true
  | _ :: _, [] => false
  | a :: as, b :: bs =>
    if a.toNat < b.toNat then true
    else if b.toNat < a.toNat then false
    else pyCharsLt as bs

/-- Python's `>=` on strings: `a >= b` iff not `a < b` lexicographically. -/
def pyStrGe (a b : String) : Bool :=
  !(pyCharsLt a.data b.data)

/-- Python's tuple comparison `a >= b` on pairs of integers (lexicographic),
as used by `sys.version_info[:2] >= (3, 3)`. -/
def pyTuple2Ge (a b : Nat × Nat) : Bool :=
  decide (b.1 < a.1) || (decide (a.1 = b.1) && decide (b.2 ≤ a.2))

/-- Embedding of `check_python`: reports
`('python3', '.'.join(map(str, sys.version_info[:3])), sys.version_info[:2] >= (3, 3))`. -/
def check_python (env : PyEnv) : CheckResult :=
  ("python3",
   some (toString env.versionInfo.1 ++ "." ++ toString env.versionInfo.2.1
         ++ "." ++ toString env.versionInfo.2.2),
   pyTuple2Ge (env.versionInfo.1, env.versionInfo.2.1) (3, 3))

/-- Embedding of `check_cdecimal`: prefers the built-in `decimal` module when
`is_fast_decimal(decimal)` holds, then a successfully imported `cdecimal`
package when `is_fast_decimal(cdecimal)` holds (with `'OKAY'` replacing a
missing `__version__`), and otherwise reports the package as missing. -/
def check_cdecimal (env : PyEnv) : CheckResult :=
  if env.decimalFast then
    ("cdecimal", some (env.decimalVersion ++ " (built-in)"), true)
  else
    match env.cdecimal with
    | some (fast, ver) =>
      if fast then ("cdecimal", some (ver.getD "OKAY"), true)
      else ("cdecimal", none, false)
    | none => ("cdecimal", none, false)

/-- Embedding of `check_import(package_name, min_version=None, module_name=None)`.
Only `ImportError` is caught by the `try`/`except` of the source; a missing
`__version__` attribute raises `AttributeError`, a non-string one makes the
`assert isinstance(version, str)` raise `AssertionError`, and any other
exception raised while the module loads propagates.  The sufficiency test is
`version >= min_version if min_version else True`, where an empty
`min_version` string is falsy. -/
def check_import (env : PyEnv) (package_name : String)
    (min_version : Option String) (module_name : Option String) :
    Except PyExc CheckResult :=
  match env.imports (module_name.getD package_name) with
  | ImportOutcome.importError => Except.ok (package_name, none, false)
  | ImportOutcome.otherError => Except.error PyExc.otherError
  | ImportOutcome.ok m =>
    match m.versionAttr with
    | none => Except.error PyExc.attributeError
    | some VersionAttr.nonStr => Except.error PyExc.assertionError
    | some (VersionAttr.str version) =>
      Except.ok (package_name, some version,
        match min_version with
        | none => true
        | some mv => if mv = "" then true else pyStrGe version mv)

/-- Embedding of `check_dependencies`: builds the report list in declaration
order.  Python evaluates the list elements left to right, so the first
exception raised by a `check_import` call propagates; this is the `bind`
chain below (`check_python` and `check_cdecimal` cannot raise in this
model). -/
def check_dependencies (env : PyEnv) : Except PyExc (List CheckResult) :=
  (check_import env "dateutil" none none).bind fun r3 =>
  (check_import env "bottle" none none).bind fun r4 =>
  (check_import env "ply" (some "3.4") (some "ply.yacc")).bind fun r5 =>
  (check_import env "lxml" (some "3") (some "lxml.etree")).bind fun r6 =>
  (check_import env "apiclient" none none).bind fun r7 =>
  (check_import env "oauth2client" none none).bind fun r8 =>
  Except.ok [check_python env, check_cdecimal env, r3, r4, r5, r6, r7, r8]

/-- Python truthiness of the version field: `None` and `''` are falsy. -/
def pyTruthy : Option String → Bool
  | none => false
  | some s => !(s = "")

/-- The version field of a report line: `version or 'NOT INSTALLED'`. -/
def versionText (version : Option String) : String :=
  if pyTruthy version then version.getD "" else "NOT INSTALLED"

/-- The trailing marker of a report line:
`"(INSUFFICIENT)" if version and not sufficient else ""`. -/
def insufficientMarker (version : Option String) (sufficient : Bool) : String :=
  if pyTruthy version && !sufficient then "(INSUFFICIENT)" else ""

/-- Left-justified padding to a minimum width, as Python's `'{:16}'.format`
does for strings. -/
def padRight (s : String) (w : Nat) : String :=
  s ++ String.mk (List.replicate (w - s.length) ' ')

/-- One formatted report line:
`'   {:16}: {} {}'.format(package, version or 'NOT INSTALLED', marker)`. -/
def format_line (r : CheckResult) : String :=
  "   " ++ padRight r.1 16 ++ ": " ++ versionText r.2.1 ++ " "
    ++ insufficientMarker r.2.1 r.2.2

/-- The two output channels `list_dependencies` writes to: `print(...)`
without a `file` argument goes to `sys.stdout`; `print(..., file=file)` goes
to the stream passed as the `file` parameter (default `sys.stderr`). -/
inductive OutChannel
  | stdout
  | fileArg
deriving DecidableEq, Repr

/-- Embedding of `list_dependencies(file=sys.stderr)`: the emitted lines
tagged with the channel each one goes to, plus the exception that interrupted
the loop, if any.  The header `print("Dependencies:")` has no `file=`
argument, so it is tagged `stdout`; the per-dependency lines go to the `file`
parameter. -/
def list_dependencies (env : PyEnv) :
    List (OutChannel × String) × Option PyExc :=
  match check_dependencies env with
  | Except.ok rs =>
    ((OutChannel.stdout, "Dependencies:")
      :: rs.map (fun r => (OutChannel.fileArg, format_line r)), none)
  | Except.error e => ([(OutChannel.stdout, "Dependencies:")], some e)

/-! ### Concrete environments used as test inputs -/

/-- An environment where nothing is installed: every import raises
`ImportError`, the built-in decimal is not the fast one, and `cdecimal` is
absent.  The interpreter is at version 3.4.1. -/
def envAbsent : PyEnv :=
  { versionInfo := (3, 4, 1)
    decimalFast := false
    decimalVersion := "1.70"
    cdecimal := none
    imports := fun _ => ImportOutcome.importError }

/-- Like `envAbsent`, but `dateutil` imports successfully while exposing no
`__version__` attribute. -/
def envNoAttr : PyEnv :=
  { envAbsent with
    imports := fun n =>
      if n = "dateutil" then ImportOutcome.ok { versionAttr := none }
      else ImportOutcome.importError }

/-- Like `envAbsent`, but `ply.yacc` imports successfully with
`__version__ = ""` (an empty, hence falsy, version string). -/
def envEmptyPly : PyEnv :=
  { envAbsent with
    imports := fun n =>
      if n = "ply.yacc" then
        ImportOutcome.ok { versionAttr := some (VersionAttr.str "") }
      else ImportOutcome.importError }

/-- Like `envAbsent`, but `ply.yacc` imports successfully with
`__version__ = "3.10"` (lexicographically below the floor `"3.4"`). -/
def envPly310 : PyEnv :=
  { envAbsent with
    imports := fun n =>
      if n = "ply.yacc" then
        ImportOutcome.ok { versionAttr := some (VersionAttr.str "3.10") }
      else ImportOutcome.importError }

/-- `envAbsent` with a prescribed interpreter version. -/
def envWithPython (vi : Nat × Nat × Nat) : PyEnv :=
  { envAbsent with versionInfo := vi }

/-- `envAbsent` with a fast built-in decimal module. -/
def envFastDecimal : PyEnv :=
  { envAbsent with decimalFast := true }

/-- `envAbsent` with a slow built-in decimal but an installed fast `cdecimal`
package that has no `__version__` attribute. -/
def envCdecimalNoVer : PyEnv :=
  { envAbsent with cdecimal := some (true, none) }

/-- Like `envAbsent`, but `bottle` imports successfully with a non-string
`__version__` attribute. -/
def envNonStr : PyEnv :=
  { envAbsent with
    imports := fun n =>
      if n = "bottle" then
        ImportOutcome.ok { versionAttr := some VersionAttr.nonStr }
      else ImportOutcome.importError }

/-- Like `envAbsent`, but importing `lxml.etree` raises an exception that is
not an `ImportError`. -/
def envOtherErr : PyEnv :=
  { envAbsent with
    imports := fun n =>
      if n = "lxml.etree" then ImportOutcome.otherError
      else ImportOutcome.importError }

/-! ### Helper lemmas -/

/-- Nothing is lexicographically below the empty character sequence. -/
theorem pyCharsLt_nil_right (l : List Char) : pyCharsLt l [] = false := by
  cases l <;> rfl

/-- Every string compares `>=` against the empty string. -/
theorem pyStrGe_empty (v : String) : pyStrGe v "" = true := by
  unfold pyStrGe
  rw [show ("" : String).data = ([] : List Char) from rfl, pyCharsLt_nil_right]
  rfl

/-- Inversion for a successful `Except.bind`. -/
theorem except_bind_eq_ok {α β ε : Type} {x : Except ε α} {f : α → Except ε β}
    {b : β} (h : x.bind f = Except.ok b) :
    ∃ a, x = Except.ok a ∧ f a = Except.ok b := by
  cases x with
  | error e => exact Except.noConfusion h
  | ok a => exact ⟨a, rfl, h⟩

/-- Inversion for a normal return of `check_import`: the displayed name is
the given `package_name`, and a result with an absent version carries
`sufficient = false`. -/
theorem check_import_ok_inv (env : PyEnv) (p : String) (mv mn : Option String)
    (r : CheckResult) (h : check_import env p mv mn = Except.ok r) :
    r.1 = p ∧ (r.2.1 = none → r.2.2 = false) := by
  unfold check_import at h
  split at h
  · injection h with h
    subst h
    exact ⟨rfl, fun _ => rfl⟩
  · exact Except.noConfusion h
  · split at h
    · exact Except.noConfusion h
    · exact Except.noConfusion h
    · injection h with h
      subst h
      exact ⟨rfl, fun hn => Option.noConfusion hn⟩

/-- `check_cdecimal` never pairs an absent version with a true flag. -/
theorem check_cdecimal_absent_inv (env : PyEnv) :
    (check_cdecimal env).2.1 = none → (check_cdecimal env).2.2 = false := by
  unfold check_cdecimal
  split
  · intro h
    exact Option.noConfusion h
  · split
    · split
      · intro h
        exact Option.noConfusion h
      · intro _
        rfl
    · intro _
      rfl

/-- Inversion for a successful `check_dependencies`: every `check_import`
call returned normally and the list is the eight results in declaration
order. -/
theorem check_dependencies_ok_shape (env : PyEnv) (rs : List CheckResult)
    (h : check_dependencies env = Except.ok rs) :
    ∃ r3 r4 r5 r6 r7 r8,
      check_import env "dateutil" none none = Except.ok r3 ∧
      check_import env "bottle" none none = Except.ok r4 ∧
      check_import env "ply" (some "3.4") (some "ply.yacc") = Except.ok r5 ∧
      check_import env "lxml" (some "3") (some "lxml.etree") = Except.ok r6 ∧
      check_import env "apiclient" none none = Except.ok r7 ∧
      check_import env "oauth2client" none none = Except.ok r8 ∧
      rs = [check_python env, check_cdecimal env, r3, r4, r5, r6, r7, r8] := by
  unfold check_dependencies at h
  obtain ⟨r3, h3, h⟩ := except_bind_eq_ok h
  obtain ⟨r4, h4, h⟩ := except_bind_eq_ok h
  obtain ⟨r5, h5, h⟩ := except_bind_eq_ok h
  obtain ⟨r6, h6, h⟩ := except_bind_eq_ok h
  obtain ⟨r7, h7, h⟩ := except_bind_eq_ok h
  obtain ⟨r8, h8, h⟩ := except_bind_eq_ok h
  injection h with h
  exact ⟨r3, r4, r5, r6, r7, r8, h3, h4, h5, h6, h7, h8, h.symm⟩

/-! ### Claims -/

/-- Claim C1 (counterexample): in an environment where `dateutil` imports
successfully but exposes no `__version__` attribute, `check_import` does not
return `("dateutil", none, false)`: the `AttributeError` raised while reading
the version attribute escapes, and `check_dependencies` raises as well. -/
theorem check_import_attribute_error_escapes :
    check_import envNoAttr "dateutil" none none
      = Except.error PyExc.attributeError ∧
    check_import envNoAttr "dateutil" none none
      ≠ Except.ok ("dateutil", none, false) ∧
    check_dependencies envNoAttr = Except.error PyExc.attributeError := by
  refine ⟨rfl, ?_, rfl⟩
  intro h
  exact Except.noConfusion h

/-- Claim C1 (amended): `check_import` catches exactly `ImportError`.  An
`ImportError` while loading the module yields `(package_name, none, false)`,
and a successful import with a string `__version__` returns normally with
that version; but a missing `__version__` propagates an `AttributeError`, a
non-string `__version__` propagates an `AssertionError`, and a
non-`ImportError` exception raised while the module loads propagates as
well — so every error return of `check_import` stems from one of exactly
those three causes. -/
theorem check_import_catches_only_import_error (env : PyEnv) (p : String)
    (mv mn : Option String) :
    (env.imports (mn.getD p) = ImportOutcome.importError →
      check_import env p mv mn = Except.ok (p, none, false)) ∧
    (∀ m v, env.imports (mn.getD p) = ImportOutcome.ok m →
      m.versionAttr = some (VersionAttr.str v) →
      ∃ b, check_import env p mv mn = Except.ok (p, some v, b)) ∧
    (∀ m, env.imports (mn.getD p) = ImportOutcome.ok m →
      m.versionAttr = none →
      check_import env p mv mn = Except.error PyExc.attributeError) ∧
    (∀ m, env.imports (mn.getD p) = ImportOutcome.ok m →
      m.versionAttr = some VersionAttr.nonStr →
      check_import env p mv mn = Except.error PyExc.assertionError) ∧
    (env.imports (mn.getD p) = ImportOutcome.otherError →
      check_import env p mv mn = Except.error PyExc.otherError) ∧
    (∀ e, check_import env p mv mn = Except.error e →
      env.imports (mn.getD p) = ImportOutcome.otherError ∨
      ∃ m, env.imports (mn.getD p) = ImportOutcome.ok m ∧
        (m.versionAttr = none ∨ m.versionAttr = some VersionAttr.nonStr)) := by
  refine ⟨?_, ?_, ?_, ?_, ?_, ?_⟩
  · intro h
    simp [check_import, h]
  · intro m v hm hv
    refine ⟨match mv with
      | none => true
      | some mvs => if mvs = "" then true else pyStrGe v mvs, ?_⟩
    simp [check_import, hm, hv]
  · intro m hm hv
    simp [check_import, hm, hv]
  · intro m hm hv
    simp [check_import, hm, hv]
  · intro h
    simp [check_import, h]
  · intro e he
    unfold check_import at he
    split at he
    · exact Except.noConfusion he
    next him => exact Or.inl him
    next m him =>
      split at he
      next hva => exact Or.inr ⟨m, him, Or.inl hva⟩
      next hva => exact Or.inr ⟨m, him, Or.inr hva⟩
      next v hva => exact Except.noConfusion he

/-- Claim C1 (witness of the amended statement): concretely, an
`ImportError` is converted into the absent/insufficient triple, while a
missing `__version__`, a non-string `__version__`, and a non-`ImportError`
load failure each propagate as an exception. -/
theorem check_import_catches_only_import_error_witness :
    check_import envAbsent "dateutil" none none
      = Except.ok ("dateutil", none, false) ∧
    check_import envNoAttr "dateutil" none none
      = Except.error PyExc.attributeError ∧
    check_import envNonStr "bottle" none none
      = Except.error PyExc.assertionError ∧
    check_import envOtherErr "lxml" (some "3") (some "lxml.etree")
      = Except.error PyExc.otherError :=
  ⟨(check_import_catches_only_import_error envAbsent "dateutil" none none).1
      rfl,
   (check_import_catches_only_import_error envNoAttr "dateutil" none
      none).2.2.1 { versionAttr := none } rfl rfl,
   (check_import_catches_only_import_error envNonStr "bottle" none
      none).2.2.2.1 { versionAttr := some VersionAttr.nonStr } rfl rfl,
   (check_import_catches_only_import_error envOtherErr "lxml" (some "3")
      (some "lxml.etree")).2.2.2.2.1 rfl⟩

/-- Claim C2: in any list returned by `check_dependencies`, a result whose
version is the absence marker has `sufficient = false`; the same invariant
holds for `check_python`, `check_cdecimal`, and every normally-returning
`check_import` call. -/
theorem absent_version_never_sufficient (env : PyEnv) (rs : List CheckResult)
    (h : check_dependencies env = Except.ok rs) :
    (∀ r, r ∈ rs → r.2.1 = none → r.2.2 = false) ∧
    ((check_python env).2.1 = none → (check_python env).2.2 = false) ∧
    ((check_cdecimal env).2.1 = none → (check_cdecimal env).2.2 = false) ∧
    (∀ p mv mn r, check_import env p mv mn = Except.ok r →
      r.2.1 = none → r.2.2 = false) := by
  obtain ⟨r3, r4, r5, r6, r7, r8, h3, h4, h5, h6, h7, h8, hrs⟩ :=
    check_dependencies_ok_shape env rs h
  refine ⟨?_, ?_, check_cdecimal_absent_inv env,
    fun p mv mn r hr => (check_import_ok_inv env p mv mn r hr).2⟩
  · subst hrs
    intro r hr hnone
    simp only [List.mem_cons, List.not_mem_nil, or_false] at hr
    rcases hr with rfl | rfl | rfl | rfl | rfl | rfl | rfl | rfl
    · simp [check_python] at hnone
    · exact check_cdecimal_absent_inv env hnone
    · exact (check_import_ok_inv env "dateutil" none none _ h3).2 hnone
    · exact (check_import_ok_inv env "bottle" none none _ h4).2 hnone
    · exact (check_import_ok_inv env "ply" (some "3.4") (some "ply.yacc") _ h5).2 hnone
    · exact (check_import_ok_inv env "lxml" (some "3") (some "lxml.etree") _ h6).2 hnone
    · exact (check_import_ok_inv env "apiclient" none none _ h7).2 hnone
    · exact (check_import_ok_inv env "oauth2client" none none _ h8).2 hnone
  · intro hn
    simp [check_python] at hn

/-- Claim C2 witness: applied to the environment where nothing is installed. -/
theorem absent_version_never_sufficient_witness :
    (("cdecimal", none, false) : CheckResult).2.2 = false :=
  (absent_version_never_sufficient envAbsent
    [("python3", some "3.4.1", true), ("cdecimal", none, false),
     ("dateutil", none, false), ("bottle", none, false),
     ("ply", none, false), ("lxml", none, false),
     ("apiclient", none, false), ("oauth2client", none, false)] rfl).1
    ("cdecimal", none, false) (by simp) rfl

/-- Claim C3: for a successful import exposing a string `__version__`, the
sufficiency flag is the lexicographic string comparison
`version >= min_version` when a `min_version` is given, and `true` when it is
not. -/
theorem check_import_lexicographic_sufficiency (env : PyEnv) (p : String)
    (mn : Option String) (m : PyModule) (v : String)
    (him : env.imports (mn.getD p) = ImportOutcome.ok m)
    (hv : m.versionAttr = some (VersionAttr.str v)) :
    check_import env p none mn = Except.ok (p, some v, true) ∧
    ∀ mv : String,
      check_import env p (some mv) mn = Except.ok (p, some v, pyStrGe v mv) := by
  constructor
  · simp [check_import, him, hv]
  · intro mv
    by_cases hmv : mv = ""
    · subst hmv
      simp [check_import, him, hv, pyStrGe_empty]
    · simp [check_import, him, hv, hmv]

/-- Claim C3 witness: with `ply.yacc` installed at version `"3.10"` against
the floor `"3.4"`, the comparison is lexicographic, so the package is judged
insufficient. -/
theorem check_import_lexicographic_sufficiency_witness :
    check_import envPly310 "ply" (some "3.4") (some "ply.yacc")
      = Except.ok ("ply", some "3.10", false) := by
  have h := (check_import_lexicographic_sufficiency envPly310 "ply"
    (some "ply.yacc") { versionAttr := some (VersionAttr.str "3.10") }
    "3.10" rfl rfl).2 "3.4"
  rw [h]
  rfl

/-- Claim C4 (code bug): the header line `"Dependencies:"` is printed by a
bare `print(...)` and therefore goes to `sys.stdout`, not to the `file`
argument that all the per-dependency lines are written to; the docstring
says the whole listing is produced on the given file. -/
theorem list_dependencies_header_on_stdout :
    (list_dependencies envAbsent).1.head?
      = some (OutChannel.stdout, "Dependencies:") ∧
    ((list_dependencies envAbsent).1.tail.all
      fun x => x.1 == OutChannel.fileArg) = true ∧
    (list_dependencies envAbsent).1.tail.length = 8 ∧
    OutChannel.stdout ≠ OutChannel.fileArg := by
  refine ⟨rfl, rfl, rfl, ?_⟩
  intro h
  exact OutChannel.noConfusion h

/-- Claim C5: `check_python` reports the dotted `major.minor.patch` string
under the name `python3`, and is sufficient exactly when `(major, minor)` is
lexicographically at least `(3, 3)`; in particular `(3,2,5)` is insufficient
while `(3,3,0)` and `(4,0,0)` are sufficient. -/
theorem check_python_version_floor (env : PyEnv) :
    (check_python env).1 = "python3" ∧
    (check_python env).2.1 = some (toString env.versionInfo.1 ++ "."
      ++ toString env.versionInfo.2.1 ++ "." ++ toString env.versionInfo.2.2) ∧
    ((check_python env).2.2 = true ↔
      3 < env.versionInfo.1 ∨ (env.versionInfo.1 = 3 ∧ 3 ≤ env.versionInfo.2.1)) ∧
    (check_python (envWithPython (3, 2, 5))).2.2 = false ∧
    (check_python (envWithPython (3, 3, 0))).2.2 = true ∧
    (check_python (envWithPython (4, 0, 0))).2.2 = true := by
  refine ⟨rfl, rfl, ?_, rfl, rfl, rfl⟩
  simp [check_python, pyTuple2Ge]

/-- Claim C5 witness: the floor accepts interpreter version 3.3.0. -/
theorem check_python_version_floor_witness :
    (check_python (envWithPython (3, 3, 0))).2.2 = true :=
  (check_python_version_floor (envWithPython (3, 3, 0))).2.2.1.mpr
    (Or.inr ⟨rfl, by decide⟩)

/-- Claim C6: the three-stage policy of `check_cdecimal`: a fast built-in
`decimal` wins and is annotated `(built-in)`; otherwise a fast imported
`cdecimal` reports its version (or `OKAY` without one); otherwise — the
package missing or not fast — the result is absent and insufficient. -/
theorem check_cdecimal_three_stage (env : PyEnv) :
    (env.decimalFast = true →
      check_cdecimal env
        = ("cdecimal", some (env.decimalVersion ++ " (built-in)"), true)) ∧
    (env.decimalFast = false → ∀ ver : Option String,
      env.cdecimal = some (true, ver) →
      check_cdecimal env = ("cdecimal", some (ver.getD "OKAY"), true)) ∧
    (env.decimalFast = false → ∀ ver : Option String,
      env.cdecimal = some (false, ver) →
      check_cdecimal env = ("cdecimal", none, false)) ∧
    (env.decimalFast = false → env.cdecimal = none →
      check_cdecimal env = ("cdecimal", none, false)) := by
  refine ⟨fun h => by simp [check_cdecimal, h],
    fun h ver hc => by simp [check_cdecimal, h, hc],
    fun h ver hc => by simp [check_cdecimal, h, hc],
    fun h hc => by simp [check_cdecimal, h, hc]⟩

/-- Claim C6 witness: the three stages at concrete environments. -/
theorem check_cdecimal_three_stage_witness :
    check_cdecimal envFastDecimal = ("cdecimal", some "1.70 (built-in)", true) ∧
    check_cdecimal envCdecimalNoVer = ("cdecimal", some "OKAY", true) ∧
    check_cdecimal envAbsent = ("cdecimal", none, false) :=
  ⟨(check_cdecimal_three_stage envFastDecimal).1 rfl,
   (check_cdecimal_three_stage envCdecimalNoVer).2.1 rfl none rfl,
   (check_cdecimal_three_stage envAbsent).2.2.2 rfl rfl⟩

/-- Claim C7 (counterexample): with `ply.yacc` installed but exposing the
empty version string, `check_dependencies` reports `("ply", some "", false)`
— a detected (non-absent) version with an insufficient flag — yet the
corresponding report line shows `NOT INSTALLED` and carries no
`(INSUFFICIENT)` marker. -/
theorem empty_version_line_lacks_marker :
    check_dependencies envEmptyPly = Except.ok
      [("python3", some "3.4.1", true), ("cdecimal", none, false),
       ("dateutil", none, false), ("bottle", none, false),
       ("ply", some "", false), ("lxml", none, false),
       ("apiclient", none, false), ("oauth2client", none, false)] ∧
    (some "" : Option String) ≠ none ∧
    insufficientMarker (some "") false = "" ∧
    format_line ("ply", some "", false)
      = "   ply             : NOT INSTALLED " := by
  refine ⟨rfl, ?_, rfl, rfl⟩
  intro h
  exact Option.noConfusion h

/-- Claim C7 (amended): `list_dependencies` writes exactly one line per
`CheckResult`, each in the fixed format with the package name padded to
width 16; the version field shows the version when it is truthy (non-absent
and non-empty) and `NOT INSTALLED` otherwise, and the `(INSUFFICIENT)`
suffix appears exactly when the version is truthy and the sufficiency flag
is false. -/
theorem list_dependencies_line_format (env : PyEnv) (rs : List CheckResult)
    (h : check_dependencies env = Except.ok rs) :
    (list_dependencies env).1 =
      (OutChannel.stdout, "Dependencies:")
        :: rs.map (fun r => (OutChannel.fileArg, format_line r)) ∧
    (∀ p v s, format_line (p, v, s) =
      "   " ++ padRight p 16 ++ ": " ++ versionText v ++ " "
        ++ insufficientMarker v s) ∧
    (∀ v s, insufficientMarker v s = "(INSUFFICIENT)"
      ↔ pyTruthy v = true ∧ s = false) ∧
    (∀ v, pyTruthy v = false → versionText v = "NOT INSTALLED") := by
  refine ⟨by simp [list_dependencies, h], fun p v s => rfl, ?_, ?_⟩
  · intro v s
    unfold insufficientMarker
    cases hv : pyTruthy v <;> cases s <;> simp [hv]
  · intro v hv
    simp [versionText, hv]

/-- Claim C7 witness (amended statement): the full report for the
environment where nothing is installed. -/
theorem list_dependencies_line_format_witness :
    (list_dependencies envAbsent).1 =
      (OutChannel.stdout, "Dependencies:")
        :: ([("python3", some "3.4.1", true), ("cdecimal", none, false),
             ("dateutil", none, false), ("bottle", none, false),
             ("ply", none, false), ("lxml", none, false),
             ("apiclient", none, false), ("oauth2client", none, false)].map
              fun r => (OutChannel.fileArg, format_line r)) :=
  (list_dependencies_line_format envAbsent
    [("python3", some "3.4.1", true), ("cdecimal", none, false),
     ("dateutil", none, false), ("bottle", none, false),
     ("ply", none, false), ("lxml", none, false),
     ("apiclient", none, false), ("oauth2client", none, false)] rfl).1

/-- Claim C8: a successful `check_dependencies` returns exactly eight
results, in declaration order: `check_python`, `check_cdecimal`, then the
imports of dateutil, bottle, ply (module `ply.yacc`, floor `3.4`), lxml
(module `lxml.etree`, floor `3`), apiclient and oauth2client. -/
theorem check_dependencies_fixed_order (env : PyEnv) (rs : List CheckResult)
    (h : check_dependencies env = Except.ok rs) :
    rs.length = 8 ∧
    rs[0]? = some (check_python env) ∧
    rs[1]? = some (check_cdecimal env) ∧
    rs[2]? = (check_import env "dateutil" none none).toOption ∧
    rs[3]? = (check_import env "bottle" none none).toOption ∧
    rs[4]? = (check_import env "ply" (some "3.4") (some "ply.yacc")).toOption ∧
    rs[5]? = (check_import env "lxml" (some "3") (some "lxml.etree")).toOption ∧
    rs[6]? = (check_import env "apiclient" none none).toOption ∧
    rs[7]? = (check_import env "oauth2client" none none).toOption := by
  obtain ⟨r3, r4, r5, r6, r7, r8, h3, h4, h5, h6, h7, h8, hrs⟩ :=
    check_dependencies_ok_shape env rs h
  subst hrs
  rw [h3, h4, h5, h6, h7, h8]
  exact ⟨rfl, rfl, rfl, rfl, rfl, rfl, rfl, rfl, rfl⟩

/-- Claim C8 witness: the report of the bare environment has eight entries. -/
theorem check_dependencies_fixed_order_witness :
    ([("python3", some "3.4.1", true), ("cdecimal", none, false),
      ("dateutil", none, false), ("bottle", none, false),
      ("ply", none, false), ("lxml", none, false),
      ("apiclient", none, false), ("oauth2client", none, false)]
        : List CheckResult).length = 8 :=
  (check_dependencies_fixed_order envAbsent
    [("python3", some "3.4.1", true), ("cdecimal", none, false),
     ("dateutil", none, false), ("bottle", none, false),
     ("ply", none, false), ("lxml", none, false),
     ("apiclient", none, false), ("oauth2client", none, false)] rfl).1

/-- Claim C9: falsy version values — the absence marker or the empty string
— are rendered as `NOT INSTALLED`, and the `(INSUFFICIENT)` marker appears
only for truthy versions; hence the absence rendering and the marker never
occur together on one line. -/
theorem not_installed_and_marker_exclusive (v : Option String) (s : Bool) :
    (pyTruthy v = false ↔ v = none ∨ v = some "") ∧
    (pyTruthy v = false → versionText v = "NOT INSTALLED") ∧
    (insufficientMarker v s ≠ "" → pyTruthy v = true) ∧
    ¬(pyTruthy v = false ∧ insufficientMarker v s ≠ "") := by
  refine ⟨?_, fun hv => by simp [versionText, hv], ?_, ?_⟩
  · cases v with
    | none => simp [pyTruthy]
    | some x => simp [pyTruthy]
  · intro hm
    cases hv : pyTruthy v with
    | true => rfl
    | false => exact absurd (by simp [insufficientMarker, hv]) hm
  · rintro ⟨hv, hm⟩
    exact hm (by simp [insufficientMarker, hv])

/-- Claim C9 witness: the empty-string version renders as `NOT INSTALLED`
and the absence marker is falsy. -/
theorem not_installed_and_marker_exclusive_witness :
    versionText (some "") = "NOT INSTALLED" ∧ pyTruthy none = false :=
  ⟨(not_installed_and_marker_exclusive (some "") true).2.1 rfl,
   (not_installed_and_marker_exclusive none true).1.mpr (Or.inl rfl)⟩

/-- Claim C10: a normally-returning `check_import` always reports the
`package_name` it was given as the displayed name, whatever module name was
actually imported and however the check turned out. -/
theorem check_import_reports_package_name (env : PyEnv) (p : String)
    (mv mn : Option String) (r : CheckResult)
    (h : check_import env p mv mn = Except.ok r) : r.1 = p :=
  (check_import_ok_inv env p mv mn r h).1

/-- Claim C10 witness: the display name `ply` is reported even though the
module actually imported is `ply.yacc`. -/
theorem check_import_reports_package_name_witness :
    (("ply", some "3.10", false) : CheckResult).1 = "ply" :=
  check_import_reports_package_name envPly310 "ply" (some "3.4")
    (some "ply.yacc") ("ply", some "3.10", false) rfl
